import Mathlib

/-!
Shallow embedding of the contact-manager program in `src/HW1.py`.

The program keeps an address book (a Python `dict` from name to record,
where a record holds a phone list and an optional birthday), wraps each
command handler in an `input_error` decorator translating `ValueError`,
`KeyError` and `IndexError` into user-facing message strings, and
persists the whole book with `pickle` on every mutation.

Modelling choices, each noted at the definition it concerns:
* the `dict` is an insertion-ordered association list; assignment to an
  existing key keeps its position, as in CPython;
* Python exceptions are an explicit `Except` value carrying the store
  and file state at the moment of the raise (in-place mutations survive
  an exception in Python);
* the pickle blob is a structured value (`PValue`); `pickle.dump`
  followed by `pickle.load` is value-faithful for these record types,
  and a corrupt or foreign blob is one that fails to decode;
* `datetime.date` is a `(year, month, day)` triple ordered
  lexicographically, with the constructor's range checks made explicit.
-/

namespace HW1

/-- ASCII whitespace recognised by Python `str.split()` / `str.strip()`. -/
def pyIsSpace (c : Char) : Bool :=
  c == ' ' || c == '\t' || c == '\n' || c == '\r' || c == '\x0b' || c == '\x0c'

/-- Helper for `pySplit`: accumulates the current token (reversed). -/
def pySplitAux : List Char → List Char → List String
  | [], acc => if acc.isEmpty then [] else [String.mk acc.reverse]
  | c :: cs, acc =>
    if pyIsSpace c then
      if acc.isEmpty then pySplitAux cs []
      else String.mk acc.reverse :: pySplitAux cs []
    else pySplitAux cs (c :: acc)

/-- Python `str.split()` with no arguments: split on runs of whitespace,
discarding empty tokens. -/
def pySplit (s : String) : List String := pySplitAux s.data []

/-- Python `str.strip()`: drop leading and trailing whitespace. -/
def pyStrip (s : String) : String :=
  String.mk (((s.data.dropWhile pyIsSpace).reverse.dropWhile pyIsSpace).reverse)

/-- Decimal digit test on a character (regex `\d` on ASCII input). -/
def isDigitChar (c : Char) : Bool := decide (48 ≤ c.toNat ∧ c.toNat ≤ 57)

/-- Numeric value of a digit character. -/
def digitVal (c : Char) : Nat := c.toNat - 48

/-- Exactly ten decimal digits. -/
def phoneDigits (cs : List Char) : Bool := cs.length == 10 && cs.all isDigitChar

/-- Body of `PHONE_PATTERN = re.compile(r'^\+?\d{10}$')`: an optional
leading plus sign followed by exactly ten digits. -/
def phoneChars : List Char → Bool
  | '+' :: cs => phoneDigits cs
  | cs => phoneDigits cs

/-- Python `PHONE_PATTERN.match(s)` as a Boolean.  In Python `$` also
matches just before a single trailing newline, hence the second
disjunct; tokens produced by `str.split()` never contain whitespace, so
that branch is dead on all handler inputs. -/
def phonePatternMatch (s : String) : Bool :=
  phoneChars s.data ||
    (match s.data.getLast? with
     | some c => c == '\n' && phoneChars s.data.dropLast
     | none => false)

/-- A Python `datetime.date` value: year, month, day. -/
structure PyDate where
  year : Nat
  month : Nat
  day : Nat
  deriving DecidableEq

/-- Gregorian leap-year rule, as used by `datetime`. -/
def isLeap (y : Nat) : Prop := y % 4 = 0 ∧ (y % 100 ≠ 0 ∨ y % 400 = 0)

instance isLeap.decidable (y : Nat) : Decidable (isLeap y) :=
  inferInstanceAs (Decidable (y % 4 = 0 ∧ (y % 100 ≠ 0 ∨ y % 400 = 0)))

/-- Number of days in a month of a given year. -/
def daysInMonth (y m : Nat) : Nat :=
  if m = 2 then (if isLeap y then 29 else 28)
  else if m = 4 ∨ m = 6 ∨ m = 9 ∨ m = 11 then 30
  else 31

/-- The range checks of the `datetime.date` constructor. -/
def validDate (d : PyDate) : Prop :=
  1 ≤ d.year ∧ d.year ≤ 9999 ∧ 1 ≤ d.month ∧ d.month ≤ 12 ∧
    1 ≤ d.day ∧ d.day ≤ daysInMonth d.year d.month

instance validDate.decidable (d : PyDate) : Decidable (validDate d) :=
  inferInstanceAs (Decidable (1 ≤ d.year ∧ d.year ≤ 9999 ∧ 1 ≤ d.month ∧ d.month ≤ 12 ∧
    1 ≤ d.day ∧ d.day ≤ daysInMonth d.year d.month))

/-- Python `date.replace(year=y)`: rebuilds the date with the new year,
re-running the constructor's validation; `none` models the `ValueError`
raised when the day does not exist in that year (e.g. Feb 29 in a
non-leap year). -/
def replaceYear (b : PyDate) (y : Nat) : Option PyDate :=
  if validDate ⟨y, b.month, b.day⟩ then some ⟨y, b.month, b.day⟩ else none

/-- Python `date` ordering: lexicographic on (year, month, day). -/
def dateLe (a b : PyDate) : Prop :=
  a.year < b.year ∨ (a.year = b.year ∧
    (a.month < b.month ∨ (a.month = b.month ∧ a.day ≤ b.day)))

instance dateLe.decidable (a b : PyDate) : Decidable (dateLe a b) :=
  inferInstanceAs (Decidable (a.year < b.year ∨ (a.year = b.year ∧
    (a.month < b.month ∨ (a.month = b.month ∧ a.day ≤ b.day)))))

/-- Successor day in the proleptic Gregorian calendar. -/
def nextDay (d : PyDate) : PyDate :=
  if d.day < daysInMonth d.year d.month then ⟨d.year, d.month, d.day + 1⟩
  else if d.month < 12 then ⟨d.year, d.month + 1, 1⟩
  else ⟨d.year + 1, 1, 1⟩

/-- Python `date + timedelta(days=n)`. -/
def addDays : Nat → PyDate → PyDate
  | 0, d => d
  | n + 1, d => addDays n (nextDay d)

/-- Character of a decimal digit. -/
def digitChar (k : Nat) : Char := Char.ofNat (48 + k)

/-- Two-digit zero-padded rendering (`%02d`) of a number below 100. -/
def pad2 (n : Nat) : List Char := [digitChar (n / 10), digitChar (n % 10)]

/-- Decimal rendering without padding, for numbers up to 9999 (the
`datetime` year range); this is what glibc `%Y` prints. -/
def decimalChars (n : Nat) : List Char :=
  if n < 10 then [digitChar n]
  else if n < 100 then [digitChar (n / 10), digitChar (n % 10)]
  else if n < 1000 then [digitChar (n / 100), digitChar (n / 10 % 10), digitChar (n % 10)]
  else [digitChar (n / 1000), digitChar (n / 100 % 10), digitChar (n / 10 % 10), digitChar (n % 10)]

/-- Character list produced by `date.strftime('%d-%m-%Y')`. -/
def formatDateChars (dt : PyDate) : List Char :=
  pad2 dt.day ++ ('-' :: (pad2 dt.month ++ ('-' :: decimalChars dt.year)))

/-- Python `date.strftime('%d-%m-%Y')`. -/
def formatDate (dt : PyDate) : String := String.mk (formatDateChars dt)

/-- Literal `-` of the strptime format string. -/
def pDash : List Char → Option (List Char)
  | '-' :: rest => some rest
  | _ => none

/-- Two-digit numeric field whose regex alternatives cover the values
`lo..hi` (strptime `%d` compiles to `3[01]|[12]\d|0[1-9]|[1-9]`, whose
two-digit alternatives are exactly 01..31; `%m` likewise 01..12). -/
def p2digit (lo hi : Nat) : List Char → Option (Nat × List Char)
  | c1 :: c2 :: rest =>
    if isDigitChar c1 && isDigitChar c2 then
      if lo ≤ 10 * digitVal c1 + digitVal c2 ∧ 10 * digitVal c1 + digitVal c2 ≤ hi then
        some (10 * digitVal c1 + digitVal c2, rest)
      else none
    else none
  | _ => none

/-- One-digit fallback alternative `[1-9]` of `%d` / `%m`. -/
def p1digit : List Char → Option (Nat × List Char)
  | c :: rest => if isDigitChar c ∧ 1 ≤ digitVal c then some (digitVal c, rest) else none
  | [] => none

/-- strptime `%Y` compiles to exactly four digits (`\d\d\d\d`). -/
def pYear4 : List Char → Option (Nat × List Char)
  | c1 :: c2 :: c3 :: c4 :: rest =>
    if isDigitChar c1 && isDigitChar c2 && isDigitChar c3 && isDigitChar c4 then
      some (1000 * digitVal c1 + 100 * digitVal c2 + 10 * digitVal c3 + digitVal c4, rest)
    else none
  | _ => none

/-- Tail after the month: the second literal dash, the year, and the
"unconverted data remains" check (the whole input must be consumed). -/
def afterMonth (d m : Nat) (cs : List Char) : Option (Nat × Nat × Nat) :=
  match pDash cs with
  | some r =>
    match pYear4 r with
    | some (y, r2) => if r2 = [] then some (d, m, y) else none
    | none => none
  | none => none

/-- Month alternation with regex backtracking: the two-digit alternative
is tried first, and if the rest of the match fails the one-digit
alternative is retried from the same position. -/
def monthAlt (d : Nat) (cs : List Char) : Option (Nat × Nat × Nat) :=
  match p2digit 1 12 cs with
  | some (m, r2) =>
    match afterMonth d m r2 with
    | some v => some v
    | none =>
      match p1digit cs with
      | some (m1, r3) => afterMonth d m1 r3
      | none => none
  | none =>
    match p1digit cs with
    | some (m1, r3) => afterMonth d m1 r3
    | none => none

/-- Tail after the day: the first literal dash, then the month. -/
def afterDay (d : Nat) (cs : List Char) : Option (Nat × Nat × Nat) :=
  match pDash cs with
  | some r => monthAlt d r
  | none => none

/-- The regex `^(%d)-(%m)-(%Y)$` built by `_strptime` for the format
`"%d-%m-%Y"`, with backtracking between the two-digit and one-digit
day alternatives. -/
def parseDMYChars (cs : List Char) : Option (Nat × Nat × Nat) :=
  match p2digit 1 31 cs with
  | some (d, r) =>
    match afterDay d r with
    | some v => some v
    | none =>
      match p1digit cs with
      | some (d1, r1) => afterDay d1 r1
      | none => none
  | none =>
    match p1digit cs with
    | some (d1, r1) => afterDay d1 r1
    | none => none

/-- Python `datetime.strptime(s, "%d-%m-%Y").date()`: the regex match
followed by the `date` constructor's validation; `none` models the
`ValueError` on failure. -/
def strptimeDate (s : String) : Option PyDate :=
  match parseDMYChars s.data with
  | some (d, m, y) => if validDate ⟨y, m, d⟩ then some ⟨y, m, d⟩ else none
  | none => none

/-- A `Record` from `HW1.py`: a name, a list of phone strings, and an
optional birthday date. -/
structure Record where
  name : String
  phones : List String
  birthday : Option PyDate
  deriving DecidableEq

/-- The `AddressBook` dict, as an insertion-ordered association list. -/
abbrev AddressBook := List (String × Record)

/-- Python dict assignment `book[k] = v`: overwrite in place (keeping
the key's position) or append a new entry. -/
def dictInsert (k : String) (v : Record) : AddressBook → AddressBook
  | [] => [(k, v)]
  | (k', v') :: rest =>
    if k' = k then (k, v) :: rest else (k', v') :: dictInsert k v rest

/-- Structured content of the pickle blob: enough constructors to
serialize a dict of records (strings, lists, `None`, dates). -/
inductive PValue where
  | pnat (n : Nat)
  | pstr (s : String)
  | plist (xs : List PValue)
  | pnone
  | pdate (y m d : Nat)

/-- Serialization of one record. -/
def encodeRecord (r : Record) : PValue :=
  .plist [.pstr r.name, .plist (r.phones.map PValue.pstr),
    (match r.birthday with
     | none => PValue.pnone
     | some b => PValue.pdate b.year b.month b.day)]

/-- Deserialization of one phone entry. -/
def decodePhone : PValue → Option String
  | .pstr s => some s
  | _ => none

/-- Deserialization of the phone list; `none` on any shape mismatch. -/
def decodePhones : List PValue → Option (List String)
  | [] => some []
  | v :: rest =>
    match decodePhone v with
    | some s =>
      match decodePhones rest with
      | some t => some (s :: t)
      | none => none
    | none => none

/-- Deserialization of one record; `none` on any shape mismatch. -/
def decodeRecord : PValue → Option Record
  | .plist [.pstr n, .plist ps, bv] =>
    match decodePhones ps with
    | some phones =>
      match bv with
      | .pnone => some ⟨n, phones, none⟩
      | .pdate y m d => some ⟨n, phones, some ⟨y, m, d⟩⟩
      | _ => none
    | none => none
  | _ => none

/-- Serialization of one dict entry. -/
def encodeEntry (kv : String × Record) : PValue :=
  .plist [.pstr kv.1, encodeRecord kv.2]

/-- Deserialization of one dict entry. -/
def decodeEntry : PValue → Option (String × Record)
  | .plist [.pstr k, rv] =>
    match decodeRecord rv with
    | some r => some (k, r)
    | none => none
  | _ => none

/-- `pickle.dump` of the whole book. -/
def encodeBook (book : AddressBook) : PValue := .plist (book.map encodeEntry)

/-- Deserialization of the entry list; `none` on any shape mismatch. -/
def decodeEntries : List PValue → Option AddressBook
  | [] => some []
  | v :: rest =>
    match decodeEntry v with
    | some kv =>
      match decodeEntries rest with
      | some t => some (kv :: t)
      | none => none
    | none => none

/-- `pickle.load` of the whole book; `none` models an unpickling error
(corrupt bytes or a value that is not an address book). -/
def decodeBook : PValue → Option AddressBook
  | .plist entries => decodeEntries entries
  | _ => none

/-- State of the persistence file: `none` is a missing file
(`FileNotFoundError` on open), `some blob` a file holding `blob`. -/
abbrev FileState := Option PValue

/-- The `save_data` function: overwrite the file with the pickled book
(the previous file state is irrelevant). -/
def save_data (book : AddressBook) : FileState := some (encodeBook book)

/-- The `load_data` function: a missing file is caught
(`except FileNotFoundError`) and yields a fresh empty `AddressBook()`;
any unpickling failure is an uncaught exception, modelled as `.error`. -/
def load_data (fs : FileState) : Except String AddressBook :=
  match fs with
  | none => .ok []
  | some blob =>
    match decodeBook blob with
    | some book => .ok book
    | none => .error "UnpicklingError"

/-- Python exceptions relevant to the `input_error` decorator. -/
inductive PyExc where
  | valueError (msg : String)
  | keyError
  | indexError
  | other (msg : String)

/-- Result of an unwrapped handler: either a returned message together
with the (possibly mutated) book and file state, or a raised exception
carrying the book and file state at the moment of the raise. -/
abbrev HandlerResult := Except (PyExc × AddressBook × FileState) (String × AddressBook × FileState)

/-- The `input_error` decorator: `ValueError` is translated to its own
message (both branches of the Python conditional return `str(e)`),
`KeyError` and `IndexError` to fixed strings; any other exception
propagates. -/
def input_error (f : String → AddressBook → FileState → HandlerResult)
    (args : String) (book : AddressBook) (fs : FileState) : HandlerResult :=
  match f args book fs with
  | .ok r => .ok r
  | .error (e, b, s) =>
    match e with
    | .valueError msg => .ok (msg, b, s)
    | .keyError => .ok ("Enter name!", b, s)
    | .indexError => .ok ("Enter name and phone number!", b, s)
    | .other m => .error (.other m, b, s)

/-- Body of `add_contact`: fewer than two tokens raises
`ValueError("Enter name and phone please")`; an invalid phone raises
`ValueError("Invalid phone number format.")`; otherwise the record is
fetched or created, the phone appended (with `add_phone` re-running the
same pattern check), and the book saved. -/
def add_contact_fn (args : String) (book : AddressBook) (fs : FileState) : HandlerResult :=
  match pySplit args with
  | name :: phone :: _ =>
    if phonePatternMatch phone then
      match List.lookup name book with
      | none =>
        -- Record(name) is inserted first; add_phone then revalidates
        -- and appends, mutating the record already held by the dict
        if phonePatternMatch phone then
          let book2 := dictInsert name ⟨name, [phone], none⟩ book
          .ok ("Contact added.", book2, save_data book2)
        else .error (.valueError "Invalid phone number format.",
          dictInsert name ⟨name, [], none⟩ book, fs)
      | some r =>
        if phonePatternMatch phone then
          let book2 := dictInsert name { r with phones := r.phones ++ [phone] } book
          .ok ("Contact updated.", book2, save_data book2)
        else .error (.valueError "Invalid phone number format.", book, fs)
    else .error (.valueError "Invalid phone number format.", book, fs)
  | _ => .error (.valueError "Enter name and phone please", book, fs)

/-- The decorated `add_contact` handler. -/
def add_contact : String → AddressBook → FileState → HandlerResult :=
  input_error add_contact_fn

/-- Body of `change_contact`: same argument and phone validation as
`add_contact`; an existing record has its phone list replaced by the
single new number; a missing name returns "Contact not found!.". -/
def change_contact_fn (args : String) (book : AddressBook) (fs : FileState) : HandlerResult :=
  match pySplit args with
  | name :: newPhone :: _ =>
    if phonePatternMatch newPhone then
      match List.lookup name book with
      | some r =>
        let book2 := dictInsert name { r with phones := [newPhone] } book
        .ok ("Contact updated!.", book2, save_data book2)
      | none => .ok ("Contact not found!.", book, fs)
    else .error (.valueError "Invalid phone number format.", book, fs)
  | _ => .error (.valueError "Enter name and phone please", book, fs)

/-- The decorated `change_contact` handler. -/
def change_contact : String → AddressBook → FileState → HandlerResult :=
  input_error change_contact_fn

/-- Body of `show_phone`: strip the argument, look the name up, and
join the phones with ", "; a missing name returns "Contact not found!.". -/
def show_phone_fn (args : String) (book : AddressBook) (fs : FileState) : HandlerResult :=
  match List.lookup (pyStrip args) book with
  | some r => .ok (String.intercalate ", " r.phones, book, fs)
  | none => .ok ("Contact not found!.", book, fs)

/-- The decorated `show_phone` handler. -/
def show_phone : String → AddressBook → FileState → HandlerResult :=
  input_error show_phone_fn

/-- Body of `add_birthday`: the starred unpacking raises `ValueError`
with Python's own message when fewer than two tokens are present; an
unparsable date raises `ValueError("Invalid date format. Use DD-MM-YYYY")`;
otherwise the birthday is overwritten and the book saved. -/
def add_birthday_fn (args : String) (book : AddressBook) (fs : FileState) : HandlerResult :=
  match pySplit args with
  | name :: bstr :: _ =>
    match List.lookup name book with
    | some r =>
      match strptimeDate bstr with
      | some b =>
        let book2 := dictInsert name { r with birthday := some b } book
        .ok ("Birthday added!.", book2, save_data book2)
      | none => .error (.valueError "Invalid date format. Use DD-MM-YYYY", book, fs)
    | none => .ok ("Contact not found!.", book, fs)
  | [_] => .error (.valueError "not enough values to unpack (expected at least 2, got 1)", book, fs)
  | [] => .error (.valueError "not enough values to unpack (expected at least 2, got 0)", book, fs)

/-- The decorated `add_birthday` handler. -/
def add_birthday : String → AddressBook → FileState → HandlerResult :=
  input_error add_birthday_fn

/-- Body of `show_birthday`: strip the argument, look the name up, and
format the stored birthday; a record without a birthday returns
"No birthday set!.", a missing name "Contact not found!.". -/
def show_birthday_fn (args : String) (book : AddressBook) (fs : FileState) : HandlerResult :=
  match List.lookup (pyStrip args) book with
  | some r =>
    match r.birthday with
    | some b => .ok (formatDate b, book, fs)
    | none => .ok ("No birthday set!.", book, fs)
  | none => .ok ("Contact not found!.", book, fs)

/-- The decorated `show_birthday` handler. -/
def show_birthday : String → AddressBook → FileState → HandlerResult :=
  input_error show_birthday_fn

/-- Loop body of `show_upcoming_birthdays`: walk the records in dict
order; a birthday whose `replace(year=today.year)` raises aborts the
whole command with that `ValueError` (modelled as `.error`, which the
decorator turns into the returned message); otherwise the record is
collected when today ≤ occurrence ≤ today + 7. -/
def collectUpcoming (today nextWeek : PyDate) : AddressBook → Except String (List (String × PyDate))
  | [] => .ok []
  | (n, r) :: rest =>
    match r.birthday with
    | none => collectUpcoming today nextWeek rest
    | some b =>
      match replaceYear b today.year with
      | none => .error "day is out of range for month"
      | some tb =>
        if dateLe today tb ∧ dateLe tb nextWeek then
          match collectUpcoming today nextWeek rest with
          | .ok l => .ok ((n, tb) :: l)
          | .error e => .error e
        else collectUpcoming today nextWeek rest

/-- The `show_upcoming_birthdays` handler, with `datetime.today()` an
explicit parameter: `.ok l` is the printed list of upcoming birthdays,
`.error msg` the `ValueError` message the decorator returns instead. -/
def show_upcoming_birthdays (today : PyDate) (book : AddressBook) :
    Except String (List (String × PyDate)) :=
  collectUpcoming today (addDays 7 today) book

/-- Declarative description of the upcoming-birthday selection: the
records with a birthday whose this-year occurrence exists and lies in
the inclusive window, in book order. -/
def upcomingSpec (today nextWeek : PyDate) (book : AddressBook) : List (String × PyDate) :=
  book.filterMap fun p =>
    match p.2.birthday with
    | none => none
    | some b =>
      match replaceYear b today.year with
      | none => none
      | some tb => if dateLe today tb ∧ dateLe tb nextWeek then some (p.1, tb) else none

/-! Helper lemmas about the dict, the codec, and the date parser. -/

theorem lookup_dictInsert_self (k : String) (v : Record) (l : AddressBook) :
    List.lookup k (dictInsert k v l) = some v := by
  induction l with
  | nil => simp [dictInsert, List.lookup]
  | cons p rest ih =>
    obtain ⟨k', v'⟩ := p
    by_cases h : k' = k
    · simp [dictInsert, h, List.lookup]
    · have h2 : (k == k') = false := beq_eq_false_iff_ne.mpr (Ne.symm h)
      simp [dictInsert, h, List.lookup, h2, ih]

theorem lookup_dictInsert_ne (k j : String) (v : Record) (l : AddressBook) (h : j ≠ k) :
    List.lookup j (dictInsert k v l) = List.lookup j l := by
  induction l with
  | nil => simp [dictInsert, List.lookup, beq_eq_false_iff_ne.mpr h]
  | cons p rest ih =>
    obtain ⟨k', v'⟩ := p
    by_cases hk : k' = k
    · subst hk
      have h2 : (j == k') = false := beq_eq_false_iff_ne.mpr h
      simp [dictInsert, List.lookup, h2]
    · simp only [dictInsert, if_neg hk, List.lookup]
      cases hjk : j == k' <;> simp [ih]

theorem keyUnique {β : Type} (l : List (String × β)) (h : (l.map Prod.fst).Nodup)
    (k : String) (v w : β) (hv : (k, v) ∈ l) (hw : (k, w) ∈ l) : v = w := by
  induction l with
  | nil => cases hv
  | cons p rest ih =>
    obtain ⟨a, b⟩ := p
    simp only [List.map_cons, List.nodup_cons] at h
    rcases List.mem_cons.mp hv with h1 | h1 <;> rcases List.mem_cons.mp hw with h2 | h2
    · rw [Prod.mk.injEq] at h1 h2
      rw [h1.2, h2.2]
    · rw [Prod.mk.injEq] at h1
      have hmem : k ∈ rest.map Prod.fst := List.mem_map.mpr ⟨(k, w), h2, rfl⟩
      rw [h1.1] at hmem
      exact absurd hmem h.1
    · rw [Prod.mk.injEq] at h2
      have hmem : k ∈ rest.map Prod.fst := List.mem_map.mpr ⟨(k, v), h1, rfl⟩
      rw [h2.1] at hmem
      exact absurd hmem h.1
    · exact ih h.2 h1 h2

theorem decodePhones_map (ps : List String) :
    decodePhones (ps.map PValue.pstr) = some ps := by
  induction ps with
  | nil => rfl
  | cons s t ih => simp [decodePhones, decodePhone, ih]

theorem decodeRecord_encodeRecord (r : Record) :
    decodeRecord (encodeRecord r) = some r := by
  obtain ⟨n, ps, b⟩ := r
  cases b <;> simp [encodeRecord, decodeRecord, decodePhones_map]

theorem decodeEntry_encodeEntry (kv : String × Record) :
    decodeEntry (encodeEntry kv) = some kv := by
  obtain ⟨k, r⟩ := kv
  simp [encodeEntry, decodeEntry, decodeRecord_encodeRecord]

theorem decodeBook_encodeBook (book : AddressBook) :
    decodeBook (encodeBook book) = some book := by
  simp only [encodeBook, decodeBook]
  induction book with
  | nil => rfl
  | cons kv rest ih => simp [decodeEntries, decodeEntry_encodeEntry, ih]

theorem daysInMonth_le (y m : Nat) : daysInMonth y m ≤ 31 := by
  unfold daysInMonth
  split_ifs <;> omega

theorem isDigitChar_digitChar (k : Nat) (hk : k < 10) : isDigitChar (digitChar k) = true := by
  interval_cases k <;> rfl

theorem digitVal_digitChar (k : Nat) (hk : k < 10) : digitVal (digitChar k) = k := by
  interval_cases k <;> rfl

theorem decimalChars_year (y : Nat) (h1 : 1000 ≤ y) :
    decimalChars y =
      [digitChar (y / 1000), digitChar (y / 100 % 10), digitChar (y / 10 % 10), digitChar (y % 10)] := by
  unfold decimalChars
  rw [if_neg (by omega), if_neg (by omega), if_neg (by omega)]

theorem p2digit_pad (lo hi n : Nat) (hn : n < 100) (hlo : lo ≤ n) (hhi : n ≤ hi)
    (rest : List Char) :
    p2digit lo hi (digitChar (n / 10) :: digitChar (n % 10) :: rest) = some (n, rest) := by
  have h1 : n / 10 < 10 := by omega
  have h2 : n % 10 < 10 := by omega
  simp [p2digit, isDigitChar_digitChar _ h1, isDigitChar_digitChar _ h2,
    digitVal_digitChar _ h1, digitVal_digitChar _ h2, Nat.div_add_mod, hlo, hhi]

theorem pYear4_digits (y : Nat) (hy : y < 10000) (rest : List Char) :
    pYear4 (digitChar (y / 1000) :: digitChar (y / 100 % 10) :: digitChar (y / 10 % 10) ::
      digitChar (y % 10) :: rest) = some (y, rest) := by
  have a1 : y / 1000 < 10 := by omega
  have a2 : y / 100 % 10 < 10 := by omega
  have a3 : y / 10 % 10 < 10 := by omega
  have a4 : y % 10 < 10 := by omega
  have hsum : 1000 * (y / 1000) + 100 * (y / 100 % 10) + 10 * (y / 10 % 10) + y % 10 = y := by
    omega
  simp [pYear4, isDigitChar_digitChar _ a1, isDigitChar_digitChar _ a2,
    isDigitChar_digitChar _ a3, isDigitChar_digitChar _ a4,
    digitVal_digitChar _ a1, digitVal_digitChar _ a2, digitVal_digitChar _ a3,
    digitVal_digitChar _ a4, hsum]

theorem afterMonth_fmt (d m y : Nat) (hy : y < 10000) :
    afterMonth d m ('-' :: digitChar (y / 1000) :: digitChar (y / 100 % 10) ::
      digitChar (y / 10 % 10) :: digitChar (y % 10) :: []) = some (d, m, y) := by
  simp [afterMonth, pDash, pYear4_digits y hy]

theorem monthAlt_fmt (d m y : Nat) (hm1 : 1 ≤ m) (hm2 : m ≤ 12) (hy : y < 10000) :
    monthAlt d (digitChar (m / 10) :: digitChar (m % 10) :: '-' :: digitChar (y / 1000) ::
      digitChar (y / 100 % 10) :: digitChar (y / 10 % 10) :: digitChar (y % 10) :: []) =
      some (d, m, y) := by
  simp [monthAlt, p2digit_pad 1 12 m (by omega) hm1 hm2, afterMonth_fmt d m y hy]

theorem parseDMY_format (y m d : Nat) (hy1 : 1000 ≤ y) (hy2 : y ≤ 9999)
    (hm1 : 1 ≤ m) (hm2 : m ≤ 12) (hd1 : 1 ≤ d) (hd31 : d ≤ 31) :
    parseDMYChars (formatDateChars ⟨y, m, d⟩) = some (d, m, y) := by
  have hchars : formatDateChars ⟨y, m, d⟩ =
      digitChar (d / 10) :: digitChar (d % 10) :: '-' ::
      digitChar (m / 10) :: digitChar (m % 10) :: '-' ::
      digitChar (y / 1000) :: digitChar (y / 100 % 10) :: digitChar (y / 10 % 10) ::
      digitChar (y % 10) :: [] := by
    simp [formatDateChars, pad2, decimalChars_year y hy1]
  rw [hchars]
  simp [parseDMYChars, p2digit_pad 1 31 d (by omega) hd1 hd31, afterDay, pDash,
    monthAlt_fmt d m y hm1 hm2 (by omega)]

theorem strptime_formatDate (dt : PyDate) (hv : validDate dt) (hy : 1000 ≤ dt.year) :
    strptimeDate (formatDate dt) = some dt := by
  obtain ⟨y, m, d⟩ := dt
  obtain ⟨h1, h2, h3, h4, h5, h6⟩ := hv
  have hd31 : d ≤ 31 := le_trans h6 (daysInMonth_le y m)
  have hdata : (formatDate ⟨y, m, d⟩).data = formatDateChars ⟨y, m, d⟩ := rfl
  simp only [strptimeDate, hdata, parseDMY_format y m d hy h2 h3 h4 h5 hd31]
  rw [if_pos ⟨h1, h2, h3, h4, h5, h6⟩]

theorem collectUpcoming_eq_spec (today nextWeek : PyDate) (book : AddressBook)
    (h : ∀ p ∈ book, ∀ b, p.2.birthday = some b → (replaceYear b today.year).isSome) :
    collectUpcoming today nextWeek book = .ok (upcomingSpec today nextWeek book) := by
  induction book with
  | nil => rfl
  | cons p rest ih =>
    obtain ⟨n, r⟩ := p
    have hrest : ∀ q ∈ rest, ∀ b, q.2.birthday = some b → (replaceYear b today.year).isSome :=
      fun q hq => h q (List.mem_cons_of_mem _ hq)
    cases hb : r.birthday with
    | none => simp [collectUpcoming, upcomingSpec, hb, ih hrest, List.filterMap_cons]
    | some b =>
      have hrep := h (n, r) (List.mem_cons_self _ _) b hb
      cases hr : replaceYear b today.year with
      | none => rw [hr] at hrep; simp [Option.isSome] at hrep
      | some tb =>
        by_cases hw : dateLe today tb ∧ dateLe tb nextWeek
        · simp [collectUpcoming, upcomingSpec, hb, hr, hw, ih hrest, List.filterMap_cons]
        · simp [collectUpcoming, upcomingSpec, hb, hr, hw, ih hrest, List.filterMap_cons]

theorem mem_collectUpcoming (today nextWeek : PyDate) (book : AddressBook)
    (l : List (String × PyDate)) (hl : collectUpcoming today nextWeek book = .ok l)
    (n : String) (d : PyDate) (hm : (n, d) ∈ l) :
    ∃ r b, (n, r) ∈ book ∧ r.birthday = some b ∧
      replaceYear b today.year = some d ∧ dateLe today d ∧ dateLe d nextWeek := by
  induction book generalizing l with
  | nil =>
    simp only [collectUpcoming] at hl
    cases hl
    cases hm
  | cons p rest ih =>
    obtain ⟨pn, pr⟩ := p
    cases hb : pr.birthday with
    | none =>
      simp only [collectUpcoming, hb] at hl
      obtain ⟨r, b, hmem, h2, h3, h4, h5⟩ := ih l hl hm
      exact ⟨r, b, List.mem_cons_of_mem _ hmem, h2, h3, h4, h5⟩
    | some b =>
      simp only [collectUpcoming, hb] at hl
      cases hr : replaceYear b today.year with
      | none =>
        simp only [hr] at hl
        exact Except.noConfusion hl
      | some tb =>
        simp only [hr] at hl
        by_cases hw : dateLe today tb ∧ dateLe tb nextWeek
        · rw [if_pos hw] at hl
          cases hrec : collectUpcoming today nextWeek rest with
          | error e =>
            simp only [hrec] at hl
            exact Except.noConfusion hl
          | ok l' =>
            simp only [hrec, Except.ok.injEq] at hl
            rw [← hl] at hm
            rcases List.mem_cons.mp hm with h1 | h1
            · rw [Prod.mk.injEq] at h1
              refine ⟨pr, b, ?_, hb, ?_, ?_, ?_⟩
              · rw [h1.1]; exact List.mem_cons_self _ _
              · rw [h1.2]; exact hr
              · rw [h1.2]; exact hw.1
              · rw [h1.2]; exact hw.2
            · obtain ⟨r, b2, hmem, h2, h3, h4, h5⟩ := ih l' hrec h1
              exact ⟨r, b2, List.mem_cons_of_mem _ hmem, h2, h3, h4, h5⟩
        · rw [if_neg hw] at hl
          obtain ⟨r, b2, hmem, h2, h3, h4, h5⟩ := ih l hl hm
          exact ⟨r, b2, List.mem_cons_of_mem _ hmem, h2, h3, h4, h5⟩

theorem input_error_ok (f : String → AddressBook → FileState → HandlerResult)
    (hf : ∀ a bk s m b2 s2, f a bk s ≠ Except.error (.other m, b2, s2))
    (a : String) (bk : AddressBook) (s : FileState) :
    ∃ m b f2, input_error f a bk s = Except.ok (m, b, f2) := by
  unfold input_error
  cases hr : f a bk s with
  | ok r => exact ⟨r.1, r.2.1, r.2.2, rfl⟩
  | error t =>
    obtain ⟨e, b2, s2⟩ := t
    cases e with
    | valueError m => exact ⟨m, b2, s2, rfl⟩
    | keyError => exact ⟨_, _, _, rfl⟩
    | indexError => exact ⟨_, _, _, rfl⟩
    | other m => exact absurd hr (hf a bk s m b2 s2)

theorem add_contact_fn_no_other (a : String) (bk : AddressBook) (s : FileState)
    (m : String) (b2 : AddressBook) (s2 : FileState) :
    add_contact_fn a bk s ≠ Except.error (.other m, b2, s2) := by
  intro h
  unfold add_contact_fn at h
  repeat' split at h
  all_goals simp at h

theorem change_contact_fn_no_other (a : String) (bk : AddressBook) (s : FileState)
    (m : String) (b2 : AddressBook) (s2 : FileState) :
    change_contact_fn a bk s ≠ Except.error (.other m, b2, s2) := by
  intro h
  unfold change_contact_fn at h
  repeat' split at h
  all_goals simp at h

theorem show_phone_fn_no_other (a : String) (bk : AddressBook) (s : FileState)
    (m : String) (b2 : AddressBook) (s2 : FileState) :
    show_phone_fn a bk s ≠ Except.error (.other m, b2, s2) := by
  intro h
  unfold show_phone_fn at h
  repeat' split at h
  all_goals simp at h

theorem add_birthday_fn_no_other (a : String) (bk : AddressBook) (s : FileState)
    (m : String) (b2 : AddressBook) (s2 : FileState) :
    add_birthday_fn a bk s ≠ Except.error (.other m, b2, s2) := by
  intro h
  unfold add_birthday_fn at h
  repeat' split at h
  all_goals simp at h

theorem show_birthday_fn_no_other (a : String) (bk : AddressBook) (s : FileState)
    (m : String) (b2 : AddressBook) (s2 : FileState) :
    show_birthday_fn a bk s ≠ Except.error (.other m, b2, s2) := by
  intro h
  unfold show_birthday_fn at h
  repeat' split at h
  all_goals simp at h

theorem add_contact_ok (a : String) (bk : AddressBook) (s : FileState) :
    ∃ m b f, add_contact a bk s = Except.ok (m, b, f) :=
  input_error_ok add_contact_fn add_contact_fn_no_other a bk s

theorem change_contact_ok (a : String) (bk : AddressBook) (s : FileState) :
    ∃ m b f, change_contact a bk s = Except.ok (m, b, f) :=
  input_error_ok change_contact_fn change_contact_fn_no_other a bk s

theorem show_phone_ok (a : String) (bk : AddressBook) (s : FileState) :
    ∃ m b f, show_phone a bk s = Except.ok (m, b, f) :=
  input_error_ok show_phone_fn show_phone_fn_no_other a bk s

theorem add_birthday_ok (a : String) (bk : AddressBook) (s : FileState) :
    ∃ m b f, add_birthday a bk s = Except.ok (m, b, f) :=
  input_error_ok add_birthday_fn add_birthday_fn_no_other a bk s

theorem show_birthday_ok (a : String) (bk : AddressBook) (s : FileState) :
    ∃ m b f, show_birthday a bk s = Except.ok (m, b, f) :=
  input_error_ok show_birthday_fn show_birthday_fn_no_other a bk s

/-! Claim theorems. -/

/-- Claim C1: saving any store and loading it back yields the identical
store (same names in the same order, same phone lists, same optional
birthdays). -/
theorem C1_save_then_load_roundtrip (book : AddressBook) :
    load_data (save_data book) = Except.ok book := by
  simp [load_data, save_data, decodeBook_encodeBook]

/-- Claim C2 counterexample: a persistence file whose contents do not
deserialize to a store does NOT fall back to an empty store at startup;
`load_data` only catches the missing-file case, so the unpickling error
propagates and startup fails. -/
theorem C2_counterexample :
    load_data (some (PValue.pnat 0)) = Except.error "UnpicklingError" ∧
      load_data (some (PValue.pnat 0)) ≠ Except.ok ([] : AddressBook) := by
  refine ⟨rfl, fun h => ?_⟩
  exact Except.noConfusion h

/-- Claim C2, amended: only a MISSING persistence file falls back to an
empty store; a readable file that deserializes is loaded as-is, and a
corrupt or non-deserializable file raises an uncaught exception at
startup (a fatal failure). -/
theorem C2_load_fallback_amended :
    load_data none = Except.ok ([] : AddressBook) ∧
    (∀ blob book, decodeBook blob = some book → load_data (some blob) = Except.ok book) ∧
    (∀ blob, decodeBook blob = none → load_data (some blob) = Except.error "UnpicklingError") := by
  refine ⟨rfl, fun blob book h => ?_, fun blob h => ?_⟩ <;> simp [load_data, h]

/-- Witness for C2 amended, at a well-formed and at a corrupt blob. -/
theorem C2_load_fallback_amended_witness :
    load_data (some (PValue.plist [])) = Except.ok ([] : AddressBook) ∧
    load_data (some (PValue.pnat 0)) = Except.error "UnpicklingError" :=
  ⟨C2_load_fallback_amended.2.1 (PValue.plist []) [] rfl,
   C2_load_fallback_amended.2.2 (PValue.pnat 0) rfl⟩

/-- Claim C3: when the phone token fails the pattern, both `add` and
`change` return the error message and leave the store and the
persistence file untouched. -/
theorem C3_invalid_phone_rejected (args : String) (book : AddressBook) (fs : FileState)
    (name phone : String) (rest : List String)
    (hsp : pySplit args = name :: phone :: rest) (hph : phonePatternMatch phone = false) :
    add_contact args book fs = Except.ok ("Invalid phone number format.", book, fs) ∧
    change_contact args book fs = Except.ok ("Invalid phone number format.", book, fs) := by
  constructor <;>
    simp [add_contact, change_contact, input_error, add_contact_fn, change_contact_fn, hsp, hph]

/-- Witness for C3 at the input "John 123" (three digits, not ten). -/
theorem C3_invalid_phone_rejected_witness :
    add_contact "John 123" [] none = Except.ok ("Invalid phone number format.", [], none) ∧
    change_contact "John 123" [] none = Except.ok ("Invalid phone number format.", [], none) :=
  C3_invalid_phone_rejected "John 123" [] none "John" "123" [] rfl rfl

/-- Claim C4: adding a contact with a valid phone and then looking the
name up yields a record whose phone list contains that phone. -/
theorem C4_add_then_find (args : String) (book : AddressBook) (fs : FileState)
    (name phone : String) (rest : List String)
    (hsp : pySplit args = name :: phone :: rest) (hph : phonePatternMatch phone = true) :
    ∃ msg book2 r, add_contact args book fs = Except.ok (msg, book2, save_data book2) ∧
      List.lookup name book2 = some r ∧ phone ∈ r.phones := by
  cases hl : List.lookup name book with
  | none =>
    refine ⟨"Contact added.", dictInsert name ⟨name, [phone], none⟩ book, ⟨name, [phone], none⟩,
      ?_, lookup_dictInsert_self _ _ _, by simp⟩
    simp [add_contact, input_error, add_contact_fn, hsp, hph, hl]
  | some r =>
    refine ⟨"Contact updated.", dictInsert name { r with phones := r.phones ++ [phone] } book,
      { r with phones := r.phones ++ [phone] }, ?_, lookup_dictInsert_self _ _ _, by simp⟩
    simp [add_contact, input_error, add_contact_fn, hsp, hph, hl]

/-- Witness for C4 at the input "John 0123456789" on the empty store. -/
theorem C4_add_then_find_witness :
    ∃ msg book2 r, add_contact "John 0123456789" [] none = Except.ok (msg, book2, save_data book2) ∧
      List.lookup "John" book2 = some r ∧ "0123456789" ∈ r.phones :=
  C4_add_then_find "John 0123456789" [] none "John" "0123456789" [] rfl rfl

/-- Claim C5 counterexample: with a stored Feb 29 birthday and a
non-leap current year, `date.replace(year=...)` raises, so the
birthdays command reports the `ValueError` text instead of returning
the in-window records (here the claim would demand the empty list). -/
theorem C5_counterexample :
    show_upcoming_birthdays ⟨2025, 2, 20⟩ [("Ann", ⟨"Ann", ["0123456789"], some ⟨2000, 2, 29⟩⟩)] =
      Except.error "day is out of range for month" := rfl

/-- Claim C5, amended: whenever every stored birthday's month and day
exist in today's year (in particular when no birthday is Feb 29 or
today's year is a leap year), the birthdays command returns exactly the
records whose this-year occurrence lies in the inclusive window
[today, today + 7 days]; otherwise it reports a date-range error
message instead. -/
theorem C5_upcoming_window_amended (today : PyDate) (book : AddressBook)
    (h : ∀ p ∈ book, ∀ b, p.2.birthday = some b → (replaceYear b today.year).isSome) :
    show_upcoming_birthdays today book =
      Except.ok (upcomingSpec today (addDays 7 today) book) :=
  collectUpcoming_eq_spec today (addDays 7 today) book h

/-- Witness for C5 amended: a record inside the window is returned and
one outside it is not. -/
theorem C5_upcoming_window_amended_witness :
    show_upcoming_birthdays ⟨2025, 3, 1⟩
        [("Ann", ⟨"Ann", [], some ⟨2000, 3, 5⟩⟩), ("Bob", ⟨"Bob", [], some ⟨1990, 3, 9⟩⟩)] =
      Except.ok (upcomingSpec ⟨2025, 3, 1⟩ (addDays 7 ⟨2025, 3, 1⟩)
        [("Ann", ⟨"Ann", [], some ⟨2000, 3, 5⟩⟩), ("Bob", ⟨"Bob", [], some ⟨1990, 3, 9⟩⟩)]) :=
  C5_upcoming_window_amended ⟨2025, 3, 1⟩ _ (by
    intro p hp b hb
    rcases List.mem_cons.mp hp with rfl | hp2
    · injection hb with h2
      subst h2
      decide
    · rcases List.mem_cons.mp hp2 with rfl | hp3
      · injection hb with h2
        subst h2
        decide
      · cases hp3)

/-- Claim C6: on every input line each of the five decorated handlers
returns a message string and never lets an exception escape; fewer than
two tokens for add/change yields the guidance message, and a missing
contact yields the not-found message. -/
theorem C6_handlers_return_messages (args : String) (book : AddressBook) (fs : FileState) :
    (∃ m b f, add_contact args book fs = Except.ok (m, b, f)) ∧
    (∃ m b f, change_contact args book fs = Except.ok (m, b, f)) ∧
    (∃ m b f, show_phone args book fs = Except.ok (m, b, f)) ∧
    (∃ m b f, add_birthday args book fs = Except.ok (m, b, f)) ∧
    (∃ m b f, show_birthday args book fs = Except.ok (m, b, f)) ∧
    (∀ name, pySplit args = [name] →
      add_contact args book fs = Except.ok ("Enter name and phone please", book, fs) ∧
      change_contact args book fs = Except.ok ("Enter name and phone please", book, fs)) ∧
    (List.lookup (pyStrip args) book = none →
      show_phone args book fs = Except.ok ("Contact not found!.", book, fs) ∧
      show_birthday args book fs = Except.ok ("Contact not found!.", book, fs)) ∧
    (∀ name phone rest, pySplit args = name :: phone :: rest → phonePatternMatch phone = true →
      List.lookup name book = none →
      change_contact args book fs = Except.ok ("Contact not found!.", book, fs)) ∧
    (∀ name bstr rest, pySplit args = name :: bstr :: rest → List.lookup name book = none →
      add_birthday args book fs = Except.ok ("Contact not found!.", book, fs)) := by
  refine ⟨add_contact_ok args book fs, change_contact_ok args book fs,
    show_phone_ok args book fs, add_birthday_ok args book fs, show_birthday_ok args book fs,
    fun name h => ⟨?_, ?_⟩, fun h => ⟨?_, ?_⟩, fun name phone rest h1 h2 h3 => ?_,
    fun name bstr rest h1 h2 => ?_⟩
  · simp [add_contact, input_error, add_contact_fn, h]
  · simp [change_contact, input_error, change_contact_fn, h]
  · simp [show_phone, input_error, show_phone_fn, h]
  · simp [show_birthday, input_error, show_birthday_fn, h]
  · simp [change_contact, input_error, change_contact_fn, h1, h2, h3]
  · simp [add_birthday, input_error, add_birthday_fn, h1, h2]

/-- Witness for C6: the guidance and not-found clauses at concrete
inputs on the empty store. -/
theorem C6_handlers_return_messages_witness :
    add_contact "John" [] none = Except.ok ("Enter name and phone please", [], none) ∧
    show_phone "John" [] none = Except.ok ("Contact not found!.", [], none) ∧
    change_contact "John 0123456789" [] none = Except.ok ("Contact not found!.", [], none) := by
  refine ⟨?_, ?_, ?_⟩
  · exact ((C6_handlers_return_messages "John" [] none).2.2.2.2.2.1 "John" rfl).1
  · exact ((C6_handlers_return_messages "John" [] none).2.2.2.2.2.2.1 rfl).1
  · exact (C6_handlers_return_messages "John 0123456789" [] none).2.2.2.2.2.2.2.1
      "John" "0123456789" [] rfl rfl rfl

/-- Claim C7: `change` with a valid phone on a name that is not in the
store returns the not-found message and leaves the store and the
persistence file untouched. -/
theorem C7_change_missing_not_found (args : String) (book : AddressBook) (fs : FileState)
    (name phone : String) (rest : List String)
    (hsp : pySplit args = name :: phone :: rest) (hph : phonePatternMatch phone = true)
    (hl : List.lookup name book = none) :
    change_contact args book fs = Except.ok ("Contact not found!.", book, fs) := by
  simp [change_contact, input_error, change_contact_fn, hsp, hph, hl]

/-- Witness for C7 at the input "Jane 0123456789" on a store holding
only "John". -/
theorem C7_change_missing_not_found_witness :
    change_contact "Jane 0123456789" [("John", ⟨"John", ["9999999999"], none⟩)] none =
      Except.ok ("Contact not found!.", [("John", ⟨"John", ["9999999999"], none⟩)], none) :=
  C7_change_missing_not_found "Jane 0123456789" [("John", ⟨"John", ["9999999999"], none⟩)] none
    "Jane" "0123456789" [] rfl rfl rfl

/-- Claim C8: `change` on an existing record replaces its whole phone
list by the single new number and leaves every other name's lookup
result unchanged. -/
theorem C8_change_replaces_phones (args : String) (book : AddressBook) (fs : FileState)
    (name phone : String) (rest : List String) (r : Record)
    (hsp : pySplit args = name :: phone :: rest) (hph : phonePatternMatch phone = true)
    (hl : List.lookup name book = some r) :
    ∃ book2, change_contact args book fs = Except.ok ("Contact updated!.", book2, save_data book2) ∧
      List.lookup name book2 = some { r with phones := [phone] } ∧
      (∀ k, k ≠ name → List.lookup k book2 = List.lookup k book) := by
  refine ⟨dictInsert name { r with phones := [phone] } book, ?_,
    lookup_dictInsert_self _ _ _, fun k hk => lookup_dictInsert_ne name k _ book hk⟩
  simp [change_contact, input_error, change_contact_fn, hsp, hph, hl]

/-- Witness for C8: "John" had two phones, after the change exactly the
new one; "Jane" is untouched. -/
theorem C8_change_replaces_phones_witness :
    ∃ book2, change_contact "John 0123456789"
        [("John", ⟨"John", ["1111111111", "2222222222"], none⟩), ("Jane", ⟨"Jane", [], none⟩)]
        none = Except.ok ("Contact updated!.", book2, save_data book2) ∧
      List.lookup "John" book2 = some ⟨"John", ["0123456789"], none⟩ ∧
      (∀ k, k ≠ "John" → List.lookup k book2 =
        List.lookup k [("John", ⟨"John", ["1111111111", "2222222222"], none⟩),
          ("Jane", ⟨"Jane", [], none⟩)]) :=
  C8_change_replaces_phones "John 0123456789"
    [("John", ⟨"John", ["1111111111", "2222222222"], none⟩), ("Jane", ⟨"Jane", [], none⟩)] none
    "John" "0123456789" [] ⟨"John", ["1111111111", "2222222222"], none⟩ rfl rfl rfl

/-- Claim C9 counterexample: "5-3-2000" parses successfully (strptime
accepts one-digit day and month), but the stored date formats back as
"05-03-2000", not the original string. -/
theorem C9_counterexample :
    strptimeDate "5-3-2000" = some ⟨2000, 3, 5⟩ ∧
      formatDate ⟨2000, 3, 5⟩ = "05-03-2000" ∧ ("05-03-2000" : String) ≠ "5-3-2000" := by
  refine ⟨rfl, rfl, by decide⟩

/-- Claim C9, amended: parse-then-format is the identity exactly on the
canonical zero-padded date strings, i.e. on every string that is the
`%d-%m-%Y` rendering of a valid date with a four-digit year; on such a
string parsing succeeds and formatting the stored date returns the
original string. -/
theorem C9_roundtrip_amended (s : String) (dt : PyDate)
    (hv : validDate dt) (hy : 1000 ≤ dt.year) (hs : s = formatDate dt) :
    ∃ dt2, strptimeDate s = some dt2 ∧ formatDate dt2 = s := by
  subst hs
  exact ⟨dt, strptime_formatDate dt hv hy, rfl⟩

/-- Witness for C9 amended at the canonical string "05-03-2000". -/
theorem C9_roundtrip_amended_witness :
    ∃ dt2, strptimeDate "05-03-2000" = some dt2 ∧ formatDate dt2 = "05-03-2000" :=
  C9_roundtrip_amended "05-03-2000" ⟨2000, 3, 5⟩ (by decide) (by decide) (by decide)

/-- Claim C10: a record whose this-year birthday occurrence falls
strictly before today never appears in the birthdays output; the window
never wraps into the next year. -/
theorem C10_no_year_wrap (book : AddressBook) (today : PyDate) (name : String) (r : Record)
    (b tb : PyDate) (hnd : (book.map Prod.fst).Nodup)
    (hmem : (name, r) ∈ book) (hb : r.birthday = some b)
    (hrep : replaceYear b today.year = some tb) (hlt : ¬ dateLe today tb)
    (l : List (String × PyDate)) (hok : show_upcoming_birthdays today book = Except.ok l)
    (d : PyDate) : (name, d) ∉ l := by
  intro hin
  obtain ⟨r2, b2, hmem2, hb2, hrep2, hle, _⟩ :=
    mem_collectUpcoming today (addDays 7 today) book l hok name d hin
  have hr : r2 = r := keyUnique book hnd name r2 r hmem2 hmem
  rw [hr, hb] at hb2
  injection hb2 with hbb
  rw [← hbb] at hrep2
  rw [hrep] at hrep2
  injection hrep2 with htd
  rw [htd] at hlt
  exact hlt hle

/-- Witness for C10: Bob's Dec 30 occurrence is one day before today
(Dec 31), and the output list is empty even though Dec 30 of the next
year is within 7 days. -/
theorem C10_no_year_wrap_witness :
    ("Bob", (⟨2026, 12, 30⟩ : PyDate)) ∉ ([] : List (String × PyDate)) :=
  C10_no_year_wrap [("Bob", ⟨"Bob", [], some ⟨1990, 12, 30⟩⟩)] ⟨2026, 12, 31⟩ "Bob"
    ⟨"Bob", [], some ⟨1990, 12, 30⟩⟩ ⟨1990, 12, 30⟩ ⟨2026, 12, 30⟩
    (by decide) (by decide) rfl (by decide) (by decide) [] rfl ⟨2026, 12, 30⟩

end HW1
